import Mathlib

/-!
Verification of the ChatterBot corpus-ingestion slice.

The repository slice contains the Django ORM abstract models
(`chatterbot/ext/django_chatterbot/abstract_models.py`) and the test suite
of the Ubuntu corpus trainer.  The trainer itself
(`chatterbot/trainers.py`) is not part of the slice, so its operations
(fetcher, extractor, dialogue parser, orchestrator) are modelled from the
specification; the ORM methods are embedded directly from the source.
-/

set_option autoImplicit false

namespace ChatterBot

/-- Modelled from the spec: a dialogue line parsed from one tab-delimited
record of a corpus file: `timestamp<TAB>speaker<TAB>addressee<TAB>text`
(the trainer source `chatterbot/trainers.py` is missing from the slice). -/
structure DialogueLine where
  timestamp : String
  speaker : String
  addressee : String
  text : String
deriving DecidableEq

/-- Modelled from the spec: a (statement, response) pair produced by the
Dialogue Parser: line i's text as the response to line i-1's text. -/
structure StatementPair where
  text : String
  in_response_to : String
deriving DecidableEq

/-- Split a character list on a separator character; adjacent separators
give empty fields, mirroring Python's `str.split('\t')`. -/
def splitOnChar (sep : Char) : List Char → List (List Char)
  | [] => [[]]
  | c :: cs =>
    match splitOnChar sep cs with
    | [] => if c = sep then [[], [c]] else [[c]]
    | r :: rs => if c = sep then [] :: r :: rs else (c :: r) :: rs

/-- Modelled from the spec: parse one line of a corpus file.  The line is
split on tab into exactly 4 fields (timestamp, speaker, addressee, text);
a missing addressee (empty string) is tolerated but timestamp, speaker
and text are required.  A blank line (or any line not yielding 4 fields)
produces no dialogue line. -/
def parseLine (line : String) : Option DialogueLine :=
  match (splitOnChar '\t' line.data).map String.mk with
  | [ts, sp, ad, tx] =>
    if ts.data = [] ∨ sp.data = [] ∨ tx.data = [] then none
    else some ⟨ts, sp, ad, tx⟩
  | _ => none

/-- Modelled from the spec: the texts of the content lines of a file, in
file order; blank (and otherwise unparseable) lines are ignored and do
not reset the pairing. -/
def contentTexts (lines : List String) : List String :=
  (lines.filterMap parseLine).map DialogueLine.text

/-- Modelled from the spec: pair consecutive texts: for every line after
the first, emit the pair whose text is the current line's text and whose
in_response_to is the previous line's text. -/
def pairsOf : List String → List StatementPair
  | a :: b :: rest => ⟨b, a⟩ :: pairsOf (b :: rest)
  | _ => []

/-- Modelled from the spec: the Dialogue Parser: read the lines of one
corpus file in order and emit one StatementPair per content line after
the first. -/
def readCorpusFile (lines : List String) : List StatementPair :=
  pairsOf (contentTexts lines)

theorem pairsOf_eq_zip (cs : List String) :
    pairsOf cs = (cs.zip cs.tail).map (fun p => ⟨p.2, p.1⟩) := by
  induction cs with
  | nil => rfl
  | cons a tl ih =>
    cases tl with
    | nil => rfl
    | cons b rest =>
      simp only [pairsOf, List.zip_cons_cons, List.tail_cons, List.map_cons] at ih ⊢
      exact congrArg _ ih

theorem length_pairsOf (cs : List String) :
    (pairsOf cs).length = cs.length - 1 := by
  rw [pairsOf_eq_zip, List.length_map, List.length_zip, List.length_tail]
  omega

/-- The three-line file of the reference scenario. -/
def helloFile : List String :=
  ["2004-11-04T16:49:00.000Z\ttom\tjane\tHello",
   "2004-11-04T16:49:00.000Z\ttom\tjane\tIs anyone there?",
   "2004-11-04T16:49:00.000Z\tjane\t\tYes",
   ""]

/-- Claim C1: for every file of tab-separated dialogue lines the parser
emits one StatementPair per content line after the first, pairing line
i's text as the response to line i-1's text, in file order (expressed by
zipping the content texts with their tail); the reference file with texts
[Hello, Is anyone there?, Yes] yields exactly the two expected pairs; and
a file with zero or one content line yields zero pairs. -/
theorem parser_pairing_correct :
    (∀ lines : List String,
       readCorpusFile lines =
         ((contentTexts lines).zip (contentTexts lines).tail).map
           (fun p => ⟨p.2, p.1⟩) ∧
       (readCorpusFile lines).length = (contentTexts lines).length - 1) ∧
    readCorpusFile helloFile =
      [⟨"Is anyone there?", "Hello"⟩, ⟨"Yes", "Is anyone there?"⟩] ∧
    readCorpusFile [] = [] ∧
    (∀ line : String, readCorpusFile [line] = []) := by
  refine ⟨fun lines => ⟨pairsOf_eq_zip _, length_pairsOf _⟩, by decide, rfl, ?_⟩
  intro line
  show pairsOf ((([line].filterMap parseLine).map DialogueLine.text)) = []
  cases h : parseLine line <;>
    simp [List.filterMap, h, pairsOf]

/-- Modelled from the spec: the local filename of a URL is its final
'/'-separated segment. -/
def urlFilename (url : String) : String :=
  String.mk ((url.data.reverse.takeWhile (fun c => c ≠ '/')).reverse)

/-- The visible outcome of one call to the Archive Fetcher:
the returned path or surfaced error, the files present under the
destination directory afterwards, and the HTTP GET requests issued
during the call (url paired with the `stream` flag). -/
structure DownloadOutcome where
  result : Except String String
  files : List String
  requests : List (String × Bool)

/-- Modelled from the spec: the Archive Fetcher `download(url,
destination)` (the trainer source is missing from the slice).  The
filename is derived as the final '/'-separated segment of the URL; if a
file of that name already exists under the destination the network is
not touched and the existing path is returned; otherwise one streaming
HTTP GET is issued and, on success, the body is written to a file of the
derived name.  Network failure or a non-success status surfaces to the
caller with no retry.  The destination directory is abstracted as the
list of filenames it holds, the network as a function from URL to the
result of a GET. -/
def download (net : String → Except String Unit) (url : String)
    (files : List String) : DownloadOutcome :=
  let name := urlFilename url
  if name ∈ files then
    ⟨.ok name, files, []⟩
  else
    match net url with
    | .ok _ => ⟨.ok name, name :: files, [(url, true)]⟩
    | .error e => ⟨.error e, files, [(url, true)]⟩

/-- Claim C2: the fetch is idempotent: if a file whose name is the final
'/'-separated segment of the URL already exists under the destination,
download performs no network request and returns the existing path with
the directory unchanged; consequently two consecutive downloads of the
same (initially uncached) URL issue exactly one request in total. -/
theorem download_idempotent :
    (∀ net url files, urlFilename url ∈ files →
       download net url files = ⟨.ok (urlFilename url), files, []⟩) ∧
    (∀ net url files, urlFilename url ∉ files → net url = .ok () →
       (download net url files).requests ++
         (download net url (download net url files).files).requests
         = [(url, true)]) := by
  constructor
  · intro net url files h
    simp [download, h]
  · intro net url files h hok
    simp [download, h, hok]

/-- Witness for C2 at a concrete URL, directory and network. -/
theorem download_idempotent_witness :
    download (fun _ => .ok ()) "https://example.com/download.tgz"
        ["download.tgz"] =
      ⟨.ok "download.tgz", ["download.tgz"], []⟩ ∧
    (download (fun _ => .ok ()) "u/f.tgz" []).requests ++
      (download (fun _ => .ok ())
        "u/f.tgz" (download (fun _ => .ok ()) "u/f.tgz" []).files).requests
      = [("u/f.tgz", true)] :=
  ⟨download_idempotent.1 _ _ _ (by decide),
   download_idempotent.2 (fun _ => .ok ()) "u/f.tgz" [] (by decide) rfl⟩

/-- Claim C3: with no cached file, download derives the local filename as
the final '/'-separated segment of the URL, issues a single streaming
HTTP GET for that URL, and after it returns a file with that derived
name exists under the destination directory. -/
theorem download_fetches_when_uncached (net : String → Except String Unit)
    (url : String) (files : List String)
    (h : urlFilename url ∉ files) (hok : net url = .ok ()) :
    (download net url files).requests = [(url, true)] ∧
    urlFilename url ∈ (download net url files).files ∧
    (download net url files).result = .ok (urlFilename url) := by
  simp [download, h, hok]

/-- Witness for C3: a concrete uncached fetch. -/
theorem download_fetches_when_uncached_witness :
    (download (fun _ => .ok ()) "https://example.com/download.tgz" []).requests
      = [("https://example.com/download.tgz", true)] ∧
    urlFilename "https://example.com/download.tgz" ∈
      (download (fun _ => .ok ()) "https://example.com/download.tgz" []).files ∧
    (download (fun _ => .ok ()) "https://example.com/download.tgz" []).result
      = .ok (urlFilename "https://example.com/download.tgz") :=
  download_fetches_when_uncached (fun _ => .ok ())
    "https://example.com/download.tgz" [] (by decide) rfl

/-- Modelled from the spec: `is_extracted(data_path)` returns true iff
the fixed subdirectory name `dialogs` exists under the data path
(abstracted as the list of top-level directory entries). -/
def is_extracted (dirs : List String) : Bool :=
  decide ("dialogs" ∈ dirs)

/-- Modelled from the spec: `extract(file_path)` unpacks the archive
(a list of entry paths, each a list of path components) into the data
path, creating the intermediate directories; its effect on the top-level
entries of the data path is to add the first component of every archive
entry. -/
def extract (entries : List (List String)) (dirs : List String) :
    List String :=
  dirs ++ entries.filterMap List.head?

/-- Claim C4: for every data path, is_extracted returns true iff the
fixed subdirectory name `dialogs` exists under it; it returns false on a
fresh (empty) data path before extract has run, and true after extract
has completed on any archive holding an entry under `dialogs`. -/
theorem is_extracted_iff_dialogs :
    (∀ dirs, is_extracted dirs = true ↔ "dialogs" ∈ dirs) ∧
    is_extracted [] = false ∧
    (∀ entries dirs, (∃ e ∈ entries, e.head? = some "dialogs") →
       is_extracted (extract entries dirs) = true) := by
  refine ⟨fun dirs => by simp [is_extracted], rfl, ?_⟩
  intro entries dirs ⟨e, he, hhead⟩
  simp only [is_extracted, extract, decide_eq_true_eq, List.mem_append]
  exact Or.inr (List.mem_filterMap.2 ⟨e, he, hhead⟩)

/-- Witness for C4: extracting the test corpus archive into a fresh data
path flips is_extracted from false to true. -/
theorem is_extracted_iff_dialogs_witness :
    (is_extracted [] = true ↔ "dialogs" ∈ ([] : List String)) ∧
    is_extracted
      (extract [["dialogs", "3", "1.tsv"], ["dialogs", "3", "2.tsv"]] [])
      = true :=
  ⟨is_extracted_iff_dialogs.1 [],
   is_extracted_iff_dialogs.2.2 _ []
     ⟨["dialogs", "3", "1.tsv"], by decide, rfl⟩⟩

/-- Modelled from the spec: a record submitted to the storage
collaborator's create/insert operation: the pair's text and
in_response_to together with the search fields derived through the
external NLP search-text collaborator. -/
structure TrainedRecord where
  text : String
  in_response_to : String
  search_text : String
  search_in_response_to : String
deriving DecidableEq

/-- Modelled from the spec: the ingestion loop of the Corpus Trainer:
iterate the corpus's conversation files in order; for each, obtain the
Dialogue Parser's pair sequence; accumulate a running count of pairs
emitted across the whole corpus; once the running count reaches the
limit (when one is set), stop scanning further files, truncating the
current file mid-stream. -/
def ingest (limit : Option Nat) : List (List String) → Nat → List StatementPair
  | [], _ => []
  | f :: fs, count =>
    match limit with
    | none => readCorpusFile f ++ ingest none fs count
    | some n =>
      if n ≤ count then []
      else
        let ps := (readCorpusFile f).take (n - count)
        ps ++ ingest (some n) fs (count + ps.length)

/-- Modelled from the spec: the StatementPairs of a whole corpus when no
limit interrupts the scan: the concatenation of each file's pairs in
file order. -/
def trainPairs (corpus : List (List String)) : List StatementPair :=
  (corpus.map readCorpusFile).flatten

/-- Modelled from the spec: derive `search_text` and
`search_in_response_to` for one pair via the search-text collaborator's
normalize operation. -/
def toRecord (normalize : String → String) (p : StatementPair) :
    TrainedRecord :=
  ⟨p.text, p.in_response_to, normalize p.text, normalize p.in_response_to⟩

/-- Modelled from the spec: the records persisted by
`train(source_url, limit)` once the archive is in place: every pair the
(possibly limited) scan produces, submitted with its derived search
fields. -/
def train (normalize : String → String) (corpus : List (List String))
    (limit : Option Nat) : List TrainedRecord :=
  (ingest limit corpus 0).map (toRecord normalize)

/-- Modelled from the spec: the storage collaborator's
`filter(text=...)` query over the persisted records. -/
def filterText (records : List TrainedRecord) (t : String) :
    List TrainedRecord :=
  records.filter (fun r => r.text = t)

/-- Modelled from the spec: the storage collaborator's
`filter(in_response_to=...)` query over the persisted records. -/
def filterInResponseTo (records : List TrainedRecord) (t : String) :
    List TrainedRecord :=
  records.filter (fun r => r.in_response_to = t)

theorem ingest_none_eq_trainPairs (fs : List (List String)) (c : Nat) :
    ingest none fs c = trainPairs fs := by
  induction fs generalizing c with
  | nil => rfl
  | cons f fs ih => simp [ingest, trainPairs, ih c]

theorem ingest_some_eq_take (n : Nat) (fs : List (List String)) (c : Nat) :
    ingest (some n) fs c = (trainPairs fs).take (n - c) := by
  induction fs generalizing c with
  | nil => simp [ingest, trainPairs]
  | cons f fs ih =>
    simp only [ingest, trainPairs, List.map_cons, List.flatten_cons,
      List.take_append_eq_append_take]
    by_cases h : n ≤ c
    · have h0 : n - c = 0 := by omega
      simp [h, h0]
    · rw [if_neg h, ih]
      have hlen : ((readCorpusFile f).take (n - c)).length
          = min (n - c) (readCorpusFile f).length := List.length_take _ _
      have hidx : n - (c + ((readCorpusFile f).take (n - c)).length)
          = n - c - (readCorpusFile f).length := by
        rw [hlen]
        rcases Nat.le_total (readCorpusFile f).length (n - c) with hle | hle
        · rw [min_eq_right hle]
          omega
        · rw [min_eq_left hle]
          omega
      rw [hidx]
      rfl

/-- Claim C5: train persists at most `limit` pairs: its record count is
the minimum of the limit and the unlimited count (the scan stops once
the running count reaches the limit, truncating mid-stream); in
particular with limit 1 against a corpus otherwise yielding more than
one pair, exactly 1 record is persisted. -/
theorem train_respects_limit :
    (∀ (normalize : String → String) (corpus : List (List String)) (n : Nat),
       (train normalize corpus (some n)).length
         = min n (train normalize corpus none).length) ∧
    (∀ (normalize : String → String) (corpus : List (List String)),
       1 < (train normalize corpus none).length →
       (train normalize corpus (some 1)).length = 1) := by
  have key : ∀ (normalize : String → String) (corpus : List (List String))
      (n : Nat), (train normalize corpus (some n)).length
        = min n (train normalize corpus none).length := by
    intro normalize corpus n
    simp [train, ingest_some_eq_take, ingest_none_eq_trainPairs,
      List.length_take]
  refine ⟨key, fun normalize corpus h => ?_⟩
  rw [key]
  omega

/-- The two three-line dialogue files of the test corpus
(`_get_data` in the trainer's test suite). -/
def testCorpus : List (List String) :=
  [helloFile,
   ["2004-11-04T16:49:00.000Z\ttom\tjane\tHello",
    "2004-11-04T16:49:00.000Z\ttom\t\tIs anyone there?",
    "2004-11-04T16:49:00.000Z\tjane\t\tYes",
    ""]]

/-- Claim C7: round-trip from parser to storage: with no limit, the
persisted records, projected back to (text, in_response_to), are exactly
the parser's StatementPairs in order (so each pair is submitted exactly
once), and every persisted record carries the search fields derived by
the normalize collaborator from its own text fields. -/
theorem train_round_trip (normalize : String → String)
    (corpus : List (List String)) :
    (train normalize corpus none).map
        (fun r => (⟨r.text, r.in_response_to⟩ : StatementPair))
      = trainPairs corpus ∧
    ∀ r ∈ train normalize corpus none,
      r.search_text = normalize r.text ∧
      r.search_in_response_to = normalize r.in_response_to := by
  constructor
  · rw [train, ingest_none_eq_trainPairs, List.map_map]
    exact List.map_id' _
  · intro r hr
    rw [train, List.mem_map] at hr
    obtain ⟨p, _, rfl⟩ := hr
    exact ⟨rfl, rfl⟩

theorem testCorpus_pairs :
    ingest none testCorpus 0 =
      [⟨"Is anyone there?", "Hello"⟩, ⟨"Yes", "Is anyone there?"⟩,
       ⟨"Is anyone there?", "Hello"⟩, ⟨"Yes", "Is anyone there?"⟩] := by
  decide

/-- Claim C6: after training on the two three-line dialogue files (each
containing the response Yes to the question), filter(text=...) returns
exactly 2 records, and filter(in_response_to=...) returns exactly 2
records whose search_in_response_to equals the normalizer's output for
the question (which is AUX:anyone PRON:there under the reference
normalizer). -/
theorem train_end_to_end (normalize : String → String)
    (h : normalize "Is anyone there?" = "AUX:anyone PRON:there") :
    (filterText (train normalize testCorpus none)
        "Is anyone there?").length = 2 ∧
    (filterInResponseTo (train normalize testCorpus none)
        "Is anyone there?").length = 2 ∧
    ∀ r ∈ filterInResponseTo (train normalize testCorpus none)
        "Is anyone there?",
      r.search_in_response_to = "AUX:anyone PRON:there" := by
  have ht : train normalize testCorpus none =
      [⟨"Is anyone there?", "Hello",
          normalize "Is anyone there?", normalize "Hello"⟩,
       ⟨"Yes", "Is anyone there?",
          normalize "Yes", normalize "Is anyone there?"⟩,
       ⟨"Is anyone there?", "Hello",
          normalize "Is anyone there?", normalize "Hello"⟩,
       ⟨"Yes", "Is anyone there?",
          normalize "Yes", normalize "Is anyone there?"⟩] := by
    rw [train, testCorpus_pairs]
    rfl
  refine ⟨?_, ?_, ?_⟩ <;> rw [ht] <;>
    simp [filterText, filterInResponseTo, h]

/-- The reference normalizer of the scenario, fixed on the one input the
scenario inspects. -/
def refNormalize (s : String) : String :=
  if s = "Is anyone there?" then "AUX:anyone PRON:there" else s

/-- Witness for C6 under the reference normalizer. -/
theorem train_end_to_end_witness :
    (filterText (train refNormalize testCorpus none)
        "Is anyone there?").length = 2 ∧
    (filterInResponseTo (train refNormalize testCorpus none)
        "Is anyone there?").length = 2 :=
  ⟨(train_end_to_end refNormalize (by decide)).1,
   (train_end_to_end refNormalize (by decide)).2.1⟩

/-- Witness for C5: with limit 1 on the test corpus (which yields 4
pairs without a limit), exactly one record is persisted. -/
theorem train_respects_limit_witness :
    (train (fun s => s) testCorpus (some 1)).length = 1 :=
  train_respects_limit.2 (fun s => s) testCorpus (by decide)

/-- Modelled from the spec: the orchestrator `train(source_url, limit)`
invokes the Fetcher unconditionally and then ingests the corpus; a
network failure or non-success status of the fetch surfaces to the
caller, aborting the invocation, with no retry. -/
def trainRun (net : String → Except String Unit)
    (normalize : String → String) (url : String) (files : List String)
    (corpus : List (List String)) (limit : Option Nat) :
    Except String (List TrainedRecord) :=
  match (download net url files).result with
  | .error e => .error e
  | .ok _ => .ok (train normalize corpus limit)

/-- Claim C8: when the download's network request fails (or returns a
non-success status), the error surfaces to the caller of train, aborting
the invocation, and exactly one request was attempted (no retry). -/
theorem download_error_aborts_train (net : String → Except String Unit)
    (normalize : String → String) (url : String) (files : List String)
    (corpus : List (List String)) (limit : Option Nat) (e : String)
    (h : urlFilename url ∉ files) (he : net url = .error e) :
    trainRun net normalize url files corpus limit = .error e ∧
    (download net url files).requests = [(url, true)] := by
  simp [trainRun, download, h, he]

/-- Witness for C8: a failing network aborts a concrete train run after
a single attempt. -/
theorem download_error_aborts_train_witness :
    trainRun (fun _ => .error "connection failed") (fun s => s)
        "https://docs.chatterbot.us/ubuntu_dialogs.tgz" [] testCorpus none
      = .error "connection failed" ∧
    (download (fun _ => .error "connection failed")
        "https://docs.chatterbot.us/ubuntu_dialogs.tgz" []).requests
      = [("https://docs.chatterbot.us/ubuntu_dialogs.tgz", true)] :=
  download_error_aborts_train (fun _ => .error "connection failed")
    (fun s => s) "https://docs.chatterbot.us/ubuntu_dialogs.tgz" []
    testCorpus none "connection failed" (by decide) rfl

/-- Witness for C7 on the test corpus with the identity normalizer. -/
theorem train_round_trip_witness :
    (train (fun s => s) testCorpus none).map
        (fun r => (⟨r.text, r.in_response_to⟩ : StatementPair))
      = trainPairs testCorpus ∧
    (⟨"Is anyone there?", "Hello", "Is anyone there?", "Hello"⟩ :
        TrainedRecord).search_text = "Is anyone there?" :=
  ⟨(train_round_trip (fun s => s) testCorpus).1,
   ((train_round_trip (fun s => s) testCorpus).2 _ (by decide)).1⟩

/-- Python's `str.strip()` on a character list: drop leading and
trailing whitespace. -/
def pyStrip (cs : List Char) : List Char :=
  ((cs.dropWhile Char.isWhitespace).reverse.dropWhile
      Char.isWhitespace).reverse

/-- `AbstractBaseStatement.__str__` from
`chatterbot/ext/django_chatterbot/abstract_models.py`: if the stripped
text is longer than 60 characters, the first 57 characters of the
unstripped text followed by an ellipsis; else the text itself when the
stripped text is nonempty; else the placeholder. -/
def statementStr (text : String) : String :=
  if 60 < (pyStrip text.data).length then
    String.mk (text.data.take 57) ++ "..."
  else if 0 < (pyStrip text.data).length then text
  else "<empty>"

/-- Claim C9: `AbstractBaseStatement.__str__` is total and returns the
placeholder when the whitespace-stripped text is empty, the full
unmodified text when the stripped length is 1 through 60, and the first
57 characters of the unstripped text followed by an ellipsis when the
stripped length exceeds 60 (the length test strips whitespace, the
truncation slice does not). -/
theorem statementStr_cases (text : String) :
    ((pyStrip text.data).length = 0 → statementStr text = "<empty>") ∧
    (1 ≤ (pyStrip text.data).length → (pyStrip text.data).length ≤ 60 →
       statementStr text = text) ∧
    (60 < (pyStrip text.data).length →
       statementStr text = String.mk (text.data.take 57) ++ "...") := by
  refine ⟨fun h0 => ?_, fun h1 h60 => ?_, fun h => ?_⟩ <;>
    simp only [statementStr] <;> split_ifs <;>
    first | rfl | omega

/-- Witness for C9: each of the three branches at a concrete text. -/
theorem statementStr_cases_witness :
    statementStr "  " = "<empty>" ∧
    statementStr "Hello" = "Hello" ∧
    statementStr (String.mk (List.replicate 70 'a'))
      = String.mk (List.replicate 57 'a') ++ "..." := by
  refine ⟨(statementStr_cases "  ").1 (by decide),
    (statementStr_cases "Hello").2.1 (by decide) (by decide), ?_⟩
  have h := (statementStr_cases (String.mk (List.replicate 70 'a'))).2.2
    (by decide)
  rw [h]
  rfl

/-- `AbstractBaseTag` / the statement's tag relation: the set of tags
attached to a statement, as the list of their unique names. -/
def get_tags (tags : List String) : List String :=
  tags

/-- `tags.get_or_create(name=tag)` on the unique-name tag relation:
attach the named tag unless a tag of that name is already attached. -/
def get_or_create (tags : List String) (name : String) : List String :=
  if name ∈ tags then tags else tags ++ [name]

/-- `AbstractBaseStatement.add_tags(*tags)`: for each given name,
get-or-create the tag of that name on the relation, in order. -/
def add_tags (tags : List String) (new : List String) : List String :=
  new.foldl get_or_create tags

theorem mem_add_tags (tags new : List String) (t : String) :
    t ∈ add_tags tags new ↔ t ∈ tags ∨ t ∈ new := by
  induction new generalizing tags with
  | nil => simp [add_tags]
  | cons a new ih =>
    simp only [add_tags, List.foldl_cons] at ih ⊢
    rw [ih]
    unfold get_or_create
    split_ifs with h
    · simp only [List.mem_cons]
      constructor
      · tauto
      · rintro (ht | rfl | ht)
        · exact Or.inl ht
        · exact Or.inl h
        · exact Or.inr ht
    · simp only [List.mem_append, List.mem_singleton, List.mem_cons]
      tauto

theorem nodup_add_tags (tags new : List String) (hnd : tags.Nodup) :
    (add_tags tags new).Nodup := by
  induction new generalizing tags with
  | nil => exact hnd
  | cons a new ih =>
    simp only [add_tags, List.foldl_cons]
    apply ih
    unfold get_or_create
    split_ifs with h
    · exact hnd
    · simp [List.nodup_append, hnd, h]

/-- Claim C10: tag attachment is idempotent and order-insensitive:
starting from a duplicate-free tag relation, after add_tags the tag list
returned by get_tags is still duplicate-free, holds exactly the old tags
and the added names (each distinct added name exactly once), and calling
add_tags again with any name already attached leaves the tag list
unchanged. -/
theorem add_tags_idempotent (tags new : List String)
    (hnd : tags.Nodup) :
    (get_tags (add_tags tags new)).Nodup ∧
    (∀ t, t ∈ get_tags (add_tags tags new) ↔ t ∈ tags ∨ t ∈ new) ∧
    (∀ t ∈ new, (get_tags (add_tags tags new)).count t = 1) ∧
    (∀ t ∈ get_tags (add_tags tags new),
       add_tags (add_tags tags new) [t] = add_tags tags new) := by
  refine ⟨nodup_add_tags tags new hnd, fun t => mem_add_tags tags new t,
    fun t ht => ?_, fun t ht => ?_⟩
  · exact List.count_eq_one_of_mem (nodup_add_tags tags new hnd)
      ((mem_add_tags tags new t).2 (Or.inr ht))
  · simp only [get_tags, add_tags] at ht
    simp [add_tags, get_or_create, ht]

/-- Witness for C10 at a concrete statement and tag names. -/
theorem add_tags_idempotent_witness :
    (get_tags (add_tags ["x"] ["a", "b", "a"])).Nodup ∧
    (get_tags (add_tags ["x"] ["a", "b", "a"])).count "a" = 1 ∧
    add_tags (add_tags ["x"] ["a", "b", "a"]) ["a"]
      = add_tags ["x"] ["a", "b", "a"] :=
  ⟨(add_tags_idempotent ["x"] ["a", "b", "a"] (by decide)).1,
   (add_tags_idempotent ["x"] ["a", "b", "a"] (by decide)).2.2.1 "a"
     (by decide),
   (add_tags_idempotent ["x"] ["a", "b", "a"] (by decide)).2.2.2 "a"
     (by decide)⟩

end ChatterBot
